import Mathlib

/-!
Shallow embedding of the micropython-obd2can repository (src/obd2can.py and
src/dummy_ecu.py) and verification of the specification's claims about it.

Bytes are modelled as natural numbers; the CAN driver hands frames to the
poll loop one at a time, and real time is abstracted: the poll loop of
OBD2CAN.request is modelled as a fold over the finite list of frames that
arrive before the deadline, with the deadline itself represented by the end
of the list.  Transmissions by OBD2CAN.send are assumed to succeed on the
first attempt (the CAN peripheral is an external collaborator).
-/

namespace Obd2Can

/-- A received CAN frame as returned by can.recv(): identifier, extended
flag, remote-request flag, and the data bytes (each byte below 256). -/
structure Frame where
  id : Nat
  ext : Bool
  rtr : Bool
  data : List Nat
deriving Repr, DecidableEq

/-- Per-session addressing configuration, from OBD2CAN.__init__
(src/obd2can.py lines 100-109): extended flag, request identifier, and the
inclusive response-identifier range. -/
structure Config where
  extframe : Bool
  reqs_id : Nat
  resp_lo : Nat
  resp_hi : Nat
deriving Repr, DecidableEq

/-- Standard (11-bit) addressing instance: request 0x7DF, responses
0x7E8..0x7EF (src/obd2can.py lines 102-105). -/
def stdConfig : Config := ⟨false, 0x7DF, 0x7E8, 0x7EF⟩

/-- Extended (29-bit) addressing instance: request 0x18DB33F1, responses
0x18DAF110..0x18DAF11F (src/obd2can.py lines 106-109). -/
def extConfig : Config := ⟨true, 0x18DB33F1, 0x18DAF110, 0x18DAF11F⟩

/-- Mutable state of the poll loop in OBD2CAN.request: multiframe_seq
(0 meaning no reassembly is active), multiframe_len and multiframe_buf.
In the Python source the latter two are unassigned until a first frame
arrives and are only ever read while multiframe_seq is nonzero or after the
first-frame branch rewrites them, so initialising them to 0 and [] is
faithful. -/
structure LoopState where
  seq : Nat
  len : Nat
  buf : List Nat
deriving Repr, DecidableEq

/-- State at entry of the poll loop: multiframe_seq = 0 (src/obd2can.py
line 181). -/
def initState : LoopState := ⟨0, 0, []⟩

/-- Outcome of processing one received frame in the poll loop of
OBD2CAN.request: continue polling with a new state, continue after having
transmitted a flow-control frame (the accepted-first-frame path, which also
resets the deadline), or return a payload to the caller. -/
inductive StepResult where
  | cont (s : LoopState)
  | contFC (s : LoopState)
  | done (ret : List Nat)
deriving Repr, DecidableEq

/-- One iteration of the poll loop of OBD2CAN.request acting on a received
frame (src/obd2can.py lines 187-242), translated condition by condition:
the software identifier filter `resp_lo > id > resp_hi` (line 188), the
RTR/extended filter (line 190), the consecutive-frame branch guarded by
multiframe_seq (lines 198-210) with the sequence update
`(multiframe_seq + 1) & 0x0F` (line 205), the single-frame branch
(lines 212-223) with the chained comparison
`len(payload) >= data[0] >= 8` (line 213), and the first-frame branch
(lines 225-242) which assigns multiframe_len, multiframe_buf and
multiframe_seq before any validity check.  The try/except IndexError around
the PID-echo checks (lines 217-221 and 233-237) accepts the frame whenever
either index is out of range, so the reject condition requires both indices
to exist.  The flow-control transmission of the accepted-first-frame path
is signalled by the contFC constructor. -/
def processFrame (cfg : Config) (payload : List Nat) (s : LoopState) (f : Frame) :
    StepResult :=
  if cfg.resp_lo > f.id ∧ f.id > cfg.resp_hi then .cont s
  else if f.rtr || (f.ext != cfg.extframe) then .cont s
  else
    let d := f.data
    let b0 := d.getD 0 0
    let pci := b0 / 16
    if s.seq ≠ 0 then
      if pci ≠ 2 then .cont s
      else if b0 % 16 ≠ s.seq then .cont s
      else
        let buf2 := s.buf ++ d.drop 1
        if buf2.length < s.len then .cont ⟨(s.seq + 1) % 16, s.len, buf2⟩
        else .done (buf2.take s.len)
    else if pci = 0 then
      if payload.length ≥ b0 ∧ b0 ≥ 8 then .cont s
      else if d.getD 1 0 ≠ payload.getD 0 0 + 0x40 then .cont s
      else if 2 < d.length ∧ 1 < payload.length ∧ d.getD 2 0 ≠ payload.getD 1 0 then
        .cont s
      else .done ((d.drop 1).take b0)
    else if pci = 1 then
      let flen := (b0 % 16) * 256 + d.getD 1 0
      if flen ≤ 7 then .cont ⟨1, flen, []⟩
      else if d.getD 2 0 ≠ payload.getD 0 0 + 0x40 then .cont ⟨1, flen, []⟩
      else if 3 < d.length ∧ 1 < payload.length ∧ d.getD 3 0 ≠ payload.getD 1 0 then
        .cont ⟨1, flen, []⟩
      else .contFC ⟨1, flen, d.drop 2⟩
    else .cont s

/-- The poll loop of OBD2CAN.request run over the finite list of frames
that arrive before the deadline; exhausting the list models the timeout
(line 244-245: return None).  Frames are delivered one at a time, so the
receive queue is empty at the instant the flow-control frame is sent. -/
def runFrames (cfg : Config) (payload : List Nat) :
    LoopState → List Frame → Option (List Nat)
  | _, [] => none
  | s, f :: rest =>
    match processFrame cfg payload s f with
    | .cont s2 => runFrames cfg payload s2 rest
    | .contFC s2 => runFrames cfg payload s2 rest
    | .done r => some r

/-- Pads a consecutive-frame chunk to the full 7 data bytes with the 0xCC
filler used throughout the repository. -/
def padTo7 (l : List Nat) : List Nat := l ++ List.replicate (7 - l.length) 0xCC

/-- First frame of a segmented message of total length n: PCI byte
0x10 + high nibble of n, low byte of n, then the first 6 message bytes
(wire format of spec section 6, consumed by the first-frame branch of
OBD2CAN.request). -/
def ffFrame (cfg : Config) (n : Nat) (msg : List Nat) : Frame :=
  ⟨cfg.resp_lo, cfg.extframe, false, (16 + n / 256) :: (n % 256) :: msg.take 6⟩

/-- Consecutive frame number k (k starting at 1) of a segmented message:
PCI byte 0x20 + sequence number wrapping 1..15, then the next 7 message
bytes, padded with 0xCC past the end of the message. -/
def cfFrame (cfg : Config) (k : Nat) (msg : List Nat) : Frame :=
  ⟨cfg.resp_lo, cfg.extframe, false,
    (32 + ((k - 1) % 15 + 1)) :: padTo7 ((msg.drop (7 * k - 1)).take 7)⟩

/-- Full segmentation of a message into a first frame carrying 6 bytes
followed by ceil((length - 6) / 7) consecutive frames of 7 bytes each with
sequence numbers 1, 2, ... wrapping 1..15, exactly the frame sequence the
round-trip claim quantifies over. -/
def segmentMsg (cfg : Config) (msg : List Nat) : List Frame :=
  ffFrame cfg msg.length msg ::
    (List.range (msg.length / 7)).map (fun j => cfFrame cfg (j + 1) msg)

/-- A concrete n-byte message whose first byte 0x43 is the response service
id for a service-0x03 request. -/
def mkMsg (n : Nat) : List Nat :=
  0x43 :: (List.range (n - 1)).map (fun i => (i + 1) % 256)

/-- The CAN driver state visible to this module: the receive queue and a
log of transmitted frames (message bytes and identifier). -/
structure CanBus where
  rx_queue : List Frame
  tx_log : List (List Nat × Nat)
deriving Repr, DecidableEq

/-- OBD2CAN.send (src/obd2can.py lines 136-165) on a successful first
attempt: pads the payload to 8 bytes with 0xCC, clears the receive queue
(line 152), then transmits to the request identifier (line 153).  The
retry-on-exception loop is not observable when the driver accepts the
frame, which is the assumed behaviour of the external peripheral. -/
def send (cfg : Config) (payload : List Nat) (bus : CanBus) : CanBus :=
  ⟨[], bus.tx_log ++ [(payload ++ List.replicate (8 - payload.length) 0xCC, cfg.reqs_id)]⟩

/-- One poll iteration of OBD2CAN.request at the driver level: pops the
head of the receive queue (can.recv, line 187) and processes it; when the
frame is an accepted first frame, the flow-control frame 0x30 0x00 0x00 is
transmitted through send (lines 240-241), which clears whatever is left of
the receive queue. -/
def stepBus (cfg : Config) (payload : List Nat) (s : LoopState) (bus : CanBus) :
    StepResult × CanBus :=
  match bus.rx_queue with
  | [] => (.cont s, bus)
  | f :: rest =>
    match processFrame cfg payload s f with
    | .contFC s2 => (.contFC s2, send cfg [0x30, 0x00, 0x00] ⟨rest, bus.tx_log⟩)
    | r => (r, ⟨rest, bus.tx_log⟩)

/-- Big-endian interpretation of a byte list, as in
int.from_bytes(bytes, "big") (src/obd2can.py line 262). -/
def bytesToNat (l : List Nat) : Nat := l.foldl (fun a b => a * 256 + b) 0

/-- The bitmap-decoding loop of OBD2CAN.get_supported_pid
(src/obd2can.py lines 263-265): for i in range(31), if bit 31 - i of the
mask is set, append pid_code + i + 1. -/
def decodeBlock (pid_code mask : Nat) : List Nat :=
  (List.range 31).filterMap
    (fun i => if Nat.testBit mask (31 - i) then some (pid_code + i + 1) else none)

/-- The while-True loop of OBD2CAN.get_supported_pid (src/obd2can.py
lines 257-269), with the ECU abstracted as a map from requested PID code to
the optional response bytes, and fuel bounding the number of iterations
(the Python loop has no bound of its own).  Accumulates the pair of
(PID codes requested so far, supported PIDs appended so far): a request is
recorded when issued; a None response breaks; otherwise the 4-byte mask is
read big-endian from response[2:], the block is decoded, and iteration
continues with pid_code + 0x20 exactly when bit 0 of the mask is set. -/
def getSupportedAux (resp : Nat → Option (List Nat)) :
    Nat → Nat → List Nat × List Nat → List Nat × List Nat
  | 0, _, acc => acc
  | fuel + 1, pid_code, (reqs, res) =>
    match resp pid_code with
    | none => (reqs ++ [pid_code], res)
    | some r =>
      let mask := bytesToNat (r.drop 2)
      let res2 := res ++ decodeBlock pid_code mask
      if mask % 2 = 1 then
        getSupportedAux resp fuel (pid_code + 0x20) (reqs ++ [pid_code], res2)
      else (reqs ++ [pid_code], res2)

/-- OBD2CAN.get_supported_pid (src/obd2can.py lines 247-270) against a
response oracle: returns the list of PID codes requested and the
accumulated supported-PID list, starting from pid_code 0x00. -/
def get_supported_pid (resp : Nat → Option (List Nat)) (fuel : Nat) :
    List Nat × List Nat :=
  getSupportedAux resp fuel 0 ([], [])

/-- Decoding of one DTC byte pair (src/obd2can.py line 293): category
letter indexed by the top two bits of the first byte, then the four
remaining nibbles each rendered by Python's default decimal formatting
(the f-string has no hex format specifier). -/
def decodeDtcPair (a b : Nat) : String :=
  (["P", "C", "B", "U"].getD (a / 64) "?") ++ Nat.repr (a / 16 % 4) ++
    Nat.repr (a % 16) ++ Nat.repr (b / 16) ++ Nat.repr (b % 16)

/-- Splits a byte list into consecutive pairs, dropping a trailing odd
byte; used to model the step-2 range loop of get_dtcs. -/
def dtcPairs : List Nat → List (Nat × Nat)
  | a :: b :: rest => (a, b) :: dtcPairs rest
  | _ => []

/-- OBD2CAN.get_dtcs (src/obd2can.py lines 272-294) applied to the
optional response of the service-0x03 request: None and odd-length DTC
payloads (after dropping the two leading bytes) give an empty list;
otherwise each byte pair is decoded. -/
def get_dtcs (resp : Option (List Nat)) : List String :=
  match resp with
  | none => []
  | some r =>
    let dtc := r.drop 2
    if dtc.length % 2 ≠ 0 then []
    else (dtcPairs dtc).map (fun p => decodeDtcPair p.1 p.2)

/-- The fixed supported-PID list of the ECU simulator
(src/dummy_ecu.py line 21). -/
def ecuSupported : List Nat :=
  [1, 3, 4, 5, 6, 11, 12, 13, 14, 15, 16, 17, 19, 21, 31, 33, 46, 47, 48,
   49, 51, 52, 66, 67, 68, 69, 71, 73, 76]

/-- Big-endian fixed-width byte encoding, as in value.to_bytes(width,
"big") in the ECU simulator. -/
def natToBytesBE (width n : Nat) : List Nat :=
  (List.range width).map (fun i => n / 256 ^ (width - 1 - i) % 256)

/-- The supported-PID bitmap synthesised by DummyEcu.process
(src/dummy_ecu.py lines 70-77): bit pid_code + 31 - i set for each i in
range(pid_code, pid_code + 31) with i + 1 supported, and bit 0 set when
some supported PID exceeds pid_code + 0x20. -/
def ecuBitmap (pid_code : Nat) : Nat :=
  let v := (List.range' pid_code 31).foldl
    (fun v i => if (i + 1) ∈ ecuSupported then v ||| (1 <<< (pid_code + 31 - i)) else v) 0
  if ecuSupported.any (fun p => decide (pid_code + 0x20 < p)) then v ||| 1 else v

/-- The PID dispatch chain of DummyEcu.process (src/dummy_ecu.py
lines 69-90), with randint modelled by the oracle rnd taking the inclusive
bounds: block bases (multiples of 0x20 below 0xC0) yield the 4-byte
bitmap, the five recognised sensor PIDs yield their synthetic value bytes,
and anything else yields no response. -/
def ecuDispatch (rnd : Nat → Nat → Nat) (pid_code : Nat) : Option (List Nat) :=
  if pid_code % 0x20 = 0 ∧ pid_code < 0xC0 then some (natToBytesBE 4 (ecuBitmap pid_code))
  else if pid_code = 0x0C then some (natToBytesBE 2 (rnd 770 880 * 4))
  else if pid_code = 0x0D then some [rnd 50 60]
  else if pid_code = 0x42 then some (natToBytesBE 2 (rnd 12000 14000))
  else if pid_code = 0x05 then some [rnd 90 120 + 40]
  else if pid_code = 0x10 then some (natToBytesBE 2 (rnd 10000 20000))
  else none

/-- DummyEcu.process (src/dummy_ecu.py lines 49-102) on one received
frame, returning the response message it transmits (to both response
identifiers) or none when the frame is dropped: drops remote frames and
extended-flag mismatches (line 57), identifiers other than the request
identifier (line 59), frames whose byte 0 differs from 2 or whose byte 1
differs from 0x01 (line 63), and unrecognised PID codes; otherwise builds
the message length + 2, 0x41, pid_code, value bytes, 0xAA padding
(line 92).  Transmission is assumed to succeed. -/
def ecuProcess (extframe : Bool) (reqs_id : Nat) (rnd : Nat → Nat → Nat)
    (f : Frame) : Option (List Nat) :=
  if f.rtr || (f.ext != extframe) then none
  else if f.id ≠ reqs_id then none
  else if f.data.getD 0 0 ≠ 2 ∨ f.data.getD 1 0 ≠ 0x01 then none
  else
    match ecuDispatch rnd (f.data.getD 2 0) with
    | none => none
    | some value =>
      some ((value.length + 2) :: 0x41 :: f.data.getD 2 0 ::
        (value ++ List.replicate (5 - value.length) 0xAA))

/-- The PID codes DummyEcu.process answers rather than drops: the
supported-PID block bases and the five sensor PIDs of the dispatch chain. -/
def recognizedPid (p : Nat) : Prop :=
  (p % 0x20 = 0 ∧ p < 0xC0) ∨ p = 0x0C ∨ p = 0x0D ∨ p = 0x42 ∨ p = 0x05 ∨ p = 0x10

instance (p : Nat) : Decidable (recognizedPid p) := by
  unfold recognizedPid
  infer_instance

/-- Response oracle answering the supported-PID query for block base 0x00
with the all-ones bitmap 0xFFFFFFFF and failing every other request. -/
def respFull : Nat → Option (List Nat) :=
  fun p => if p = 0 then some [0x41, 0x00, 0xFF, 0xFF, 0xFF, 0xFF] else none

/-- A fixed randint oracle returning the lower bound of each range. -/
def rndLo : Nat → Nat → Nat := fun lo _ => lo

/-- A first frame declaring total length 5, which is at most 7 and hence
malformed according to the specification. -/
def ffBad : Frame := ⟨0x7E8, false, false, [0x10, 0x05, 0x41, 0x0D, 1, 2, 3, 4]⟩

/-- A valid single-frame response to the request 0x01 0x0D: declared
length 3, echoing service id 0x41 and PID 0x0D. -/
def sfGood : Frame := ⟨0x7E8, false, false, [0x03, 0x41, 0x0D, 0x37, 0xCC, 0xCC, 0xCC, 0xCC]⟩

/-- A valid first frame for a service-0x03 request declaring total
length 20 and echoing the response service id 0x43. -/
def goodFF : Frame := ⟨0x7E8, false, false, [0x10, 0x14, 0x43, 1, 2, 3, 4, 5]⟩

set_option maxRecDepth 100000

/-- Claim C1, code-bug evidence: the software identifier filter of the poll
loop (the reject condition resp_lo > id > resp_hi of src/obd2can.py
line 188) never rejects anything, because no identifier is simultaneously
below 0x7E8 and above 0x7EF.  A single-frame response arriving with
identifier 0x100, and another with identifier 0x7FF — both outside the
inclusive response range 0x7E8..0x7EF of the standard session — are each
accepted and complete the exchange, contradicting the claim that every
frame with an out-of-range identifier is skipped. -/
theorem id_filter_accepts_out_of_range :
    processFrame stdConfig [0x01, 0x0D] initState
      ⟨0x100, false, false, [0x03, 0x41, 0x0D, 0x37, 0xCC, 0xCC, 0xCC, 0xCC]⟩ =
      StepResult.done [0x41, 0x0D, 0x37] ∧
    processFrame stdConfig [0x01, 0x0D] initState
      ⟨0x7FF, false, false, [0x03, 0x41, 0x0D, 0x37, 0xCC, 0xCC, 0xCC, 0xCC]⟩ =
      StepResult.done [0x41, 0x0D, 0x37] := by
  exact ⟨by decide, by decide⟩

/-- Claim C2, code-bug evidence: segment-and-reassemble round-trips for a
message of 111 bytes (6 first-frame bytes plus 15 consecutive frames of 7),
but a message of 112 bytes requires a sixteenth consecutive frame, and after
the fifteenth the sequence counter has wrapped to 0 via
`(multiframe_seq + 1) & 0x0F` (src/obd2can.py line 205), which deactivates
the reassembly branch; the exchange therefore times out and returns None,
refuting the claimed round-trip for all total lengths up to 4095. -/
theorem multiframe_roundtrip_breaks_at_112 :
    runFrames stdConfig [0x03] initState (segmentMsg stdConfig (mkMsg 111)) =
      some (mkMsg 111) ∧
    runFrames stdConfig [0x03] initState (segmentMsg stdConfig (mkMsg 112)) =
      none := by
  exact ⟨by decide, by decide⟩

/-- Claim C3, code-bug evidence: after accepting a consecutive frame with
sequence number 15 while the buffer is still short of the declared length,
the next expected sequence number computed by
`(multiframe_seq + 1) & 0x0F` (src/obd2can.py line 205) is 0 — not 1 as
the claim (and the specification's cycle 1→…→15→1) states — and since 0
doubles as the no-reassembly sentinel the exchange is silently
deactivated. -/
theorem seq_wraps_to_zero_after_15 :
    processFrame extConfig [0x01] ⟨15, 200, List.replicate 104 0⟩
      ⟨0x18DAF110, true, false, [0x2F, 1, 2, 3, 4, 5, 6, 7]⟩ =
      StepResult.cont ⟨0, 200, List.replicate 104 0 ++ [1, 2, 3, 4, 5, 6, 7]⟩ := by
  decide

/-- Claim C4, code-bug evidence: the declared-length validity check of the
single-frame branch, the chained comparison
`len(payload) >= data[0] >= 8` (src/obd2can.py line 213), is unsatisfiable
for the two-byte request 0x01 0x0D, so it never rejects: a single frame
with declared length 0 is accepted and returns an empty payload, and one
with declared length 8 is accepted and returns the 7 available bytes —
both outside the claimed valid range 1..7. -/
theorem single_frame_accepts_len_zero_and_eight :
    processFrame stdConfig [0x01, 0x0D] initState
      ⟨0x7E8, false, false, [0x00, 0x41, 0x0D, 0xAA, 0xAA, 0xAA, 0xAA, 0xAA]⟩ =
      StepResult.done [] ∧
    processFrame stdConfig [0x01, 0x0D] initState
      ⟨0x7E8, false, false, [0x08, 0x41, 0x0D, 1, 2, 3, 4, 5]⟩ =
      StepResult.done [0x41, 0x0D, 1, 2, 3, 4, 5] := by
  exact ⟨by decide, by decide⟩

/-- Claim C5 counterexample: for the all-ones bitmap 0xFFFFFFFF at block
base 0x00 the continue bit (bit 0) is set, yet PID 32 is not included in
the accumulated result of get_supported_pid — the decoding loop
`for i in range(31)` (src/obd2can.py line 263) covers bits 31 down to 1
only, so the claimed inclusion of PIDs {1, …, 32} is false. -/
theorem supported_pid_excludes_32 :
    Nat.testBit 0xFFFFFFFF 0 = true ∧
    32 ∉ (get_supported_pid respFull 8).2 := by
  exact ⟨by decide, by decide⟩

/-- Helper for the amended claim C5: membership in a decoded block is
exactly the bit test, for the 31 positions the loop actually covers. -/
theorem decodeBlock_mem (base mask i : Nat) (hi : i < 31) :
    ((base + i + 1) ∈ decodeBlock base mask ↔ Nat.testBit mask (31 - i)) := by
  simp only [decodeBlock, List.mem_filterMap, List.mem_range]
  constructor
  · rintro ⟨j, hj, hcond⟩
    by_cases hb : Nat.testBit mask (31 - j)
    · simp only [hb, if_true, Option.some.injEq] at hcond
      have hji : j = i := by omega
      rwa [hji] at hb
    · simp [hb] at hcond
  · intro hb
    exact ⟨i, hi, by simp [hb]⟩

/-- Claim C5 as amended: for the all-ones bitmap at block base 0x00,
get_supported_pid accumulates exactly PIDs {1, …, 31} and, because bit 0 is
set, issues a follow-up request for block base 0x20 (the requested PID
codes are exactly 0x00 then 0x20); in general, for every bitmap and every
i at most 30, bit 31 - i set causes PID block_base + i + 1 to be reported
as supported (PID block_base + 32 is never reported; bit 0 only signals
continuation). -/
theorem supported_pid_amended :
    ((get_supported_pid respFull 8).1 = [0x00, 0x20] ∧
     (get_supported_pid respFull 8).2 = (List.range 31).map (fun i => i + 1)) ∧
    ∀ base mask i, i < 31 →
      ((base + i + 1) ∈ decodeBlock base mask ↔ Nat.testBit mask (31 - i)) :=
  ⟨⟨by decide, by decide⟩, decodeBlock_mem⟩

/-- Witness for supported_pid_amended at block base 0, the all-ones
bitmap, and position i = 0. -/
theorem supported_pid_amended_witness :
    ((0 + 0 + 1) ∈ decodeBlock 0 0xFFFFFFFF ↔ Nat.testBit 0xFFFFFFFF (31 - 0)) :=
  supported_pid_amended.2 0 0xFFFFFFFF 0 (by decide)

/-- Claim C6, code-bug evidence: a first frame declaring total length 5
(at most 7, hence malformed) is not ignored without effect: the state
assignments of src/obd2can.py lines 226-228 run before the length check of
line 229, so processing it activates reassembly (multiframe_seq becomes 1
with an empty buffer and length 5) instead of leaving the initial state
unchanged, and a subsequent valid single-frame response — which alone
completes the exchange — is then skipped, so the exchange times out. -/
theorem short_first_frame_corrupts_state :
    processFrame stdConfig [0x01, 0x0D] initState ffBad =
      StepResult.cont ⟨1, 5, []⟩ ∧
    runFrames stdConfig [0x01, 0x0D] initState [sfGood] =
      some [0x41, 0x0D, 0x37] ∧
    runFrames stdConfig [0x01, 0x0D] initState [ffBad, sfGood] = none := by
  exact ⟨by decide, by decide, by decide⟩

/-- Claim C7 counterexample: a frame on the request identifier, with
matching extended flag, not remote, declared length byte 3 (which is at
least 2), service-id byte 0x01 and the recognised PID code 0x0C is
nevertheless dropped by DummyEcu.process, because the code requires the
declared length byte to equal 2 exactly (src/dummy_ecu.py line 63). -/
theorem ecu_drops_declared_length_three :
    ecuProcess true 0x18DB33F1 rndLo
      ⟨0x18DB33F1, true, false, [3, 0x01, 0x0C, 0, 0, 0, 0, 0]⟩ = none := by
  decide

/-- Helper: the dispatch chain of DummyEcu.process produces a value
exactly for the recognised PID codes. -/
theorem ecuDispatch_isSome (rnd : Nat → Nat → Nat) (p : Nat) :
    (ecuDispatch rnd p).isSome = true ↔ recognizedPid p := by
  unfold ecuDispatch recognizedPid
  split_ifs with h1 h2 h3 h4 h5 h6 <;> simp_all

/-- Claim C7 as amended: DummyEcu.process answers a received frame if and
only if it is not a remote frame, its extended flag matches the session,
it arrived on the request identifier, its declared length byte equals 2
exactly (not merely at least 2), its service-id byte equals 0x01, and its
PID code is recognised by the dispatch chain; in particular every request
meeting these conditions is dispatched rather than dropped. -/
theorem ecu_answers_iff (extframe : Bool) (reqs_id : Nat)
    (rnd : Nat → Nat → Nat) (f : Frame) :
    (ecuProcess extframe reqs_id rnd f).isSome = true ↔
      (f.rtr = false ∧ f.ext = extframe ∧ f.id = reqs_id ∧
       f.data.getD 0 0 = 2 ∧ f.data.getD 1 0 = 0x01 ∧
       recognizedPid (f.data.getD 2 0)) := by
  have hd := ecuDispatch_isSome rnd (f.data.getD 2 0)
  unfold ecuProcess
  split_ifs with h1 h2 h3
  · simp only [Option.isSome_none, Bool.false_eq_true, false_iff]
    rintro ⟨hr, he, -⟩
    simp [hr, he] at h1
  · simp only [Option.isSome_none, Bool.false_eq_true, false_iff]
    rintro ⟨-, -, hid, -⟩
    exact h2 hid
  · simp only [Option.isSome_none, Bool.false_eq_true, false_iff]
    rintro ⟨-, -, -, h0, h01, -⟩
    rcases h3 with h | h
    · exact h h0
    · exact h h01
  · simp only [Bool.or_eq_true, bne_iff_ne, ne_eq, not_or, Bool.not_eq_true,
      Decidable.not_not] at h1 h2
    push_neg at h3
    cases hm : ecuDispatch rnd (f.data.getD 2 0) with
    | none =>
      rw [hm] at hd
      simp only [hm, Option.isSome_none, Bool.false_eq_true, false_iff]
      rintro ⟨-, -, -, -, -, hrec⟩
      exact absurd (hd.mpr hrec) (by simp)
    | some v =>
      rw [hm] at hd
      simp only [hm, Option.isSome_some, true_iff]
      exact ⟨h1.1, h1.2, h2, h3.1, h3.2, hd.mp rfl⟩

/-- Witness for ecu_answers_iff at a concrete valid request frame for
PID 0x0C. -/
theorem ecu_answers_iff_witness :
    (ecuProcess true 0x18DB33F1 rndLo
      ⟨0x18DB33F1, true, false, [2, 0x01, 0x0C, 0, 0, 0, 0, 0]⟩).isSome = true ↔
      ((false : Bool) = false ∧ (true : Bool) = true ∧
       (0x18DB33F1 : Nat) = 0x18DB33F1 ∧
       ([2, 0x01, 0x0C, 0, 0, 0, 0, 0] : List Nat).getD 0 0 = 2 ∧
       ([2, 0x01, 0x0C, 0, 0, 0, 0, 0] : List Nat).getD 1 0 = 0x01 ∧
       recognizedPid (([2, 0x01, 0x0C, 0, 0, 0, 0, 0] : List Nat).getD 2 0)) :=
  ecu_answers_iff true 0x18DB33F1 rndLo
    ⟨0x18DB33F1, true, false, [2, 0x01, 0x0C, 0, 0, 0, 0, 0]⟩

/-- Claim C8, confirmed: while a reassembly is active (multiframe_seq is
nonzero), any received frame whose PCI nibble is not 2 or whose low-nibble
sequence number differs from the expected one leaves the loop state — the
buffer and the expected sequence number — exactly unchanged and neither
completes nor aborts the exchange: the step result is to continue polling
with the same state (src/obd2can.py lines 198-203). -/
theorem cf_mismatch_ignored (cfg : Config) (payload : List Nat) (s : LoopState)
    (f : Frame) (hs : s.seq ≠ 0)
    (h : f.data.getD 0 0 / 16 ≠ 2 ∨ f.data.getD 0 0 % 16 ≠ s.seq) :
    processFrame cfg payload s f = StepResult.cont s := by
  unfold processFrame
  dsimp only
  split_ifs <;> first | rfl | omega

/-- Witness for cf_mismatch_ignored: a consecutive frame carrying sequence
number 5 while 3 is expected is ignored and the state is unchanged. -/
theorem cf_mismatch_ignored_witness :
    processFrame extConfig [0x01] ⟨3, 20, [1, 2, 3, 4, 5, 6]⟩
      ⟨0x18DAF110, true, false, [0x25, 9, 9, 9, 9, 9, 9, 9]⟩ =
      StepResult.cont ⟨3, 20, [1, 2, 3, 4, 5, 6]⟩ :=
  cf_mismatch_ignored extConfig [0x01] ⟨3, 20, [1, 2, 3, 4, 5, 6]⟩
    ⟨0x18DAF110, true, false, [0x25, 9, 9, 9, 9, 9, 9, 9]⟩ (by decide)
    (Or.inr (by decide))

/-- Claim C9, code-bug evidence: the byte pair (0x01, 0x43) decodes to
P0143 and an odd-length DTC payload yields an empty list, as claimed; but
the pair (0x0A, 0x00) decodes to the six-character string P01000, because
the f-string of src/obd2can.py line 293 renders each nibble in decimal
(no hex format specifier), contradicting the claimed five-character code
built from the four nibbles in order (and the docstring of get_dtcs, which
promises 5-character codes); the pair (0xC5, 0xBF) similarly yields the
seven-character U051115. -/
theorem dtc_decode_eval :
    get_dtcs (some [0x43, 0x02, 0x01, 0x43]) = ["P0143"] ∧
    get_dtcs (some [0x43, 0x02, 0x01, 0x43, 0x00]) = [] ∧
    get_dtcs (some [0x43, 0x02, 0x0A, 0x00]) = ["P01000"] ∧
    "P01000".length = 6 ∧
    get_dtcs (some [0x43, 0x02, 0xC5, 0xBF]) = ["U051115"] := by
  exact ⟨by decide, by decide, by decide, by decide, by decide⟩

/-- Claim C10, confirmed: every send clears the receive queue before
transmitting, and in particular when the poll loop accepts a first frame
and transmits the flow-control frame, every response frame still queued at
that moment (for example consecutive frames that arrived before flow
control went out) is discarded from the receive queue and can never be
delivered to the reassembler. -/
theorem send_clears_rx_queue :
    (∀ cfg payload bus, (send cfg payload bus).rx_queue = []) ∧
    (∀ cfg payload s f rest log s2,
       processFrame cfg payload s f = StepResult.contFC s2 →
       (stepBus cfg payload s ⟨f :: rest, log⟩).2.rx_queue = [] ∧
       ∀ g ∈ rest, g ∉ (stepBus cfg payload s ⟨f :: rest, log⟩).2.rx_queue) := by
  constructor
  · intro cfg payload bus
    rfl
  · intro cfg payload s f rest log s2 hp
    unfold stepBus
    simp only [hp]
    exact ⟨rfl, by simp [send]⟩

/-- Witness for send_clears_rx_queue: an accepted first frame with a
consecutive frame already queued behind it; the flow-control send empties
the queue. -/
theorem send_clears_rx_queue_witness :
    (stepBus stdConfig [0x03] initState ⟨goodFF :: [sfGood], []⟩).2.rx_queue = [] ∧
    ∀ g ∈ [sfGood],
      g ∉ (stepBus stdConfig [0x03] initState ⟨goodFF :: [sfGood], []⟩).2.rx_queue :=
  send_clears_rx_queue.2 stdConfig [0x03] initState goodFF [sfGood] []
    ⟨1, 20, [0x43, 1, 2, 3, 4, 5]⟩ (by decide)

end Obd2Can
